import Mathlib

/-!
Shallow embedding of the Person/Address/Song/Artist CRUD API
(`src/main.py`, `src/models/artists.py`, `src/models/songs.py`).

Conventions of the embedding:
* Python `uuid.UUID` values are wrapped in a one-field structure `UUID` so
  that a Python comparison between a `UUID` and a `str` (which is always
  `False`, since `UUID.__eq__` returns `NotImplemented` for a `str`) can be
  modelled explicitly and is not confused with a string comparison.
* `datetime` instants and `timedelta` durations are opaque numbers; handlers
  that call `datetime.utcnow` (via pydantic `default_factory`) receive the
  current instant as an explicit `now` parameter, and `uuid4` minting is an
  explicit `fresh` parameter.
* The four module-level dicts of `main.py` form the `World` state; Python
  dicts preserve insertion order, assignment to an existing key keeps its
  position, and `pop` removes it, which `Store` reproduces on an
  association list.
* A pydantic Update model field is wrapped in one `Option` layer for
  "explicitly set by the caller vs unset" (what `model_dump(exclude_unset=True)`
  keeps) and, when the field is nullable (`Optional[...]` annotation), in a
  second inner `Option` layer for "null vs value".  A field with no default
  and no `default_factory` is required: schema validation (`valid`) rejects a
  payload that leaves it unset, with HTTP 422, before the handler runs.
* Handlers return `Except Err (Nat × α)` where the `Nat` is the HTTP status
  code of the route decorator (201 for create, 200 otherwise).
-/

/-- Python `uuid.UUID`, wrapped so it is a distinct type from `String`. -/
structure UUID where
  val : String
deriving DecidableEq, Repr

/-- Opaque instant (Python `datetime`). -/
abbrev DateTime := Nat

/-- Opaque duration (Python `timedelta`). -/
abbrev Duration := Nat

/-- An in-memory "database": association list in insertion order, modelling a
Python dict (`persons`, `addresses`, `songs`, `artists` in `main.py`). -/
abbrev Store (α : Type) := List (UUID × α)

namespace Store

/-- Dict lookup: `d[k]` / `k in d`. -/
def get? : Store α → UUID → Option α
  | [], _ => none
  | (k', v) :: t, k => if k' = k then some v else get? t k

/-- Python `k in d`. -/
def contains (s : Store α) (k : UUID) : Bool := (s.get? k).isSome

/-- Dict assignment `d[k] = v`: replaces in place when the key exists
(keeping its position in insertion order), appends otherwise. -/
def set : Store α → UUID → α → Store α
  | [], k, v => [(k, v)]
  | (k', v') :: t, k, v => if k' = k then (k, v) :: t else (k', v') :: set t k v

/-- Dict `d.pop(k)`: removes the binding for `k`. -/
def pop : Store α → UUID → Store α
  | [], _ => []
  | (k', v') :: t, k => if k' = k then t else (k', v') :: pop t k

/-- Python `list(d.values())`, in insertion order. -/
def values (s : Store α) : List α := s.map (·.2)

theorem get?_set_self (s : Store α) (k : UUID) (v : α) :
    (s.set k v).get? k = some v := by
  induction s with
  | nil => simp [set, get?]
  | cons hd t ih =>
    by_cases h : hd.1 = k
    · simp [set, get?, h]
    · simp [set, get?, h, ih]

theorem get?_set_ne (s : Store α) (k k' : UUID) (v : α) (h : k' ≠ k) :
    (s.set k v).get? k' = s.get? k' := by
  induction s with
  | nil => simp [set, get?, Ne.symm h]
  | cons hd t ih =>
    by_cases hk : hd.1 = k
    · simp [set, get?, hk, Ne.symm h]
    · by_cases hk' : hd.1 = k'
      · simp [set, get?, hk, hk', h]
      · simp [set, get?, hk, hk', ih]

theorem set_get?_self (s : Store α) (k : UUID) (v : α) (h : s.get? k = some v) :
    s.set k v = s := by
  induction s with
  | nil => simp [get?] at h
  | cons hd t ih =>
    obtain ⟨a, b⟩ := hd
    by_cases hk : a = k
    · simp [get?, hk] at h
      simp [set, hk, h]
    · simp [get?, hk] at h
      simp [set, hk, ih h]

theorem contains_eq_false_iff (s : Store α) (k : UUID) :
    s.contains k = false ↔ s.get? k = none := by
  unfold contains
  cases s.get? k <;> simp

theorem contains_eq_true_iff (s : Store α) (k : UUID) :
    s.contains k = true ↔ ∃ v, s.get? k = some v := by
  unfold contains
  cases s.get? k <;> simp

end Store

/-- The two error statuses raised by the handlers (`HTTPException` 400 and
404 in `main.py`), plus the two rejection paths that occur outside the
handler body: schema validation of the request payload (FastAPI returns 422
before the handler runs) and a pydantic `ValidationError` raised while
re-materializing a Read record inside a handler (an unhandled 500). -/
inductive Err where
  | conflict
  | notFound
  | unprocessable
  | validation
deriving DecidableEq, Repr

/-- HTTP status code of each error kind. -/
def Err.code : Err → Nat
  | .conflict => 400
  | .notFound => 404
  | .unprocessable => 422
  | .validation => 500

/-! ### Data model: Address and Person

`src/models/address.py` and `src/models/person.py` are not present under
`src/`; only their import and use in `src/main.py` is.  The structures below
are therefore modelled from the spec (see the doc comment on each). -/

/-- Modelled from the spec: `models/address.py` is missing from `src/`.
Spec §3: "Address: identifier; fields {street, city, state, postal_code,
country}, all independently filterable".  This base shape also serves as the
Create payload (after validation the identifier is always present: spec §4.2,
"identifier auto-generated if absent") and as the embedded Address value of a
Person (§3: "an ordered list of embedded Address values"). -/
structure Address where
  id : UUID
  street : String
  city : String
  state : String
  postal_code : String
  country : String
deriving DecidableEq, Repr

/-- Modelled from the spec: Read projection of an Address, adding the two
server-assigned UTC timestamps of §3. -/
structure AddressRead extends Address where
  created_at : DateTime
  updated_at : DateTime
deriving DecidableEq, Repr

/-- Modelled from the spec: Update payload for an Address.  §4.5: "every
field is optional"; §3: "Partial update never alters the identifier", so no
identifier field.  `none` means the caller did not set the field (what
`model_dump(exclude_unset=True)` drops). -/
structure AddressUpdate where
  street : Option String
  city : Option String
  state : Option String
  postal_code : Option String
  country : Option String
deriving DecidableEq, Repr

/-- Modelled from the spec: `models/person.py` is missing from `src/`.
Spec §3: "Person: identifier; required {uni, first_name, last_name};
optional {email, phone, birth_date}; an ordered list of embedded Address
values".  Spec §9: create "silently discards any client-supplied Person
identifier", so a client-supplied identifier is carried as `Option UUID`
and ignored by `create_person`. -/
structure PersonCreate where
  id : Option UUID
  uni : String
  first_name : String
  last_name : String
  email : Option String
  phone : Option String
  birth_date : Option String
  addresses : List Address
deriving DecidableEq, Repr

/-- Modelled from the spec: Read projection of a Person (server-assigned
identifier and timestamps, §3). -/
structure PersonRead where
  id : UUID
  uni : String
  first_name : String
  last_name : String
  email : Option String
  phone : Option String
  birth_date : Option String
  addresses : List Address
  created_at : DateTime
  updated_at : DateTime
deriving DecidableEq, Repr

/-- Modelled from the spec: Update payload for a Person, every field
optional (§4.5) and no identifier field (§3).  For the nullable business
fields the inner `Option` distinguishes "supplied as null" from a value;
the outer `Option` is "set vs unset". -/
structure PersonUpdate where
  uni : Option String
  first_name : Option String
  last_name : Option String
  email : Option (Option String)
  phone : Option (Option String)
  birth_date : Option (Option String)
  addresses : Option (List Address)
deriving DecidableEq, Repr

/-! ### Data model: Artist and Song (from `src/models/artists.py`,
`src/models/songs.py`) -/

/-- `ArtistBase` in `models/artists.py`: `id` (default_factory `uuid4`, so
always present after validation), required `name`, nullable optional
`real_name` and `bio`.  `ArtistCreate` adds no fields to it. -/
structure ArtistBase where
  id : UUID
  name : String
  real_name : Option String
  bio : Option String
deriving DecidableEq, Repr

/-- `ArtistRead` in `models/artists.py`: adds `created_at` / `updated_at`
(default_factory `datetime.utcnow`). -/
structure ArtistRead extends ArtistBase where
  created_at : DateTime
  updated_at : DateTime
deriving DecidableEq, Repr

/-- `ArtistUpdate` in `models/artists.py`.  Outer `Option` = set vs unset.
`id` has a `default_factory`, so it may be left unset; `name` is redeclared
as `name: str = Field(description=...)` with NO default, hence required and
non-nullable; `real_name` and `bio` have `default=None`, hence optional and
nullable (inner `Option`). -/
structure ArtistUpdate where
  id : Option UUID
  name : Option String
  real_name : Option (Option String)
  bio : Option (Option String)
deriving DecidableEq, Repr

/-- Schema validation of an `ArtistUpdate` request body: `name` has no
default, so FastAPI rejects (422) any payload that does not set it. -/
def ArtistUpdate.valid (u : ArtistUpdate) : Bool := u.name.isSome

/-- `SongBase` in `models/songs.py`: `id` (default_factory `uuid4`),
required `name`, `artists` (default_factory `list`) embedding Artist
snapshots, required `length` (timedelta) and `published_date` (str).
`SongCreate` adds no fields to it. -/
structure SongBase where
  id : UUID
  name : String
  artists : List ArtistBase
  length : Duration
  published_date : String
deriving DecidableEq, Repr

/-- `SongRead` in `models/songs.py`: adds `created_at` / `updated_at`. -/
structure SongRead extends SongBase where
  created_at : DateTime
  updated_at : DateTime
deriving DecidableEq, Repr

/-- `SongUpdate` in `models/songs.py`.  `name`, `length` and
`published_date` are redeclared with `Optional[...]` type (nullable, inner
`Option`) but with `Field(description=...)` and NO default, hence required:
a payload leaving any of them unset fails validation.  `artists` keeps
`default_factory=list`, so it may be left unset, and its `Optional[List
[ArtistBase]]` annotation makes it nullable.  `id` is inherited with its
`default_factory`. -/
structure SongUpdate where
  id : Option UUID
  name : Option (Option String)
  artists : Option (Option (List ArtistBase))
  length : Option (Option Duration)
  published_date : Option (Option String)
deriving DecidableEq, Repr

/-- Schema validation of a `SongUpdate` request body: `name`, `length` and
`published_date` have no default, so FastAPI rejects (422) any payload that
leaves one of them unset. -/
def SongUpdate.valid (u : SongUpdate) : Bool :=
  u.name.isSome && u.length.isSome && u.published_date.isSome

/-- The four module-level dicts of `main.py`. -/
structure World where
  persons : Store PersonRead
  addresses : Store AddressRead
  songs : Store SongRead
  artists : Store ArtistRead
deriving DecidableEq, Repr

/-! ### Handlers (`src/main.py`) -/

/-- Python semantics of the comparisons `s.id == id` in `list_song` and
`a.id == id` in `list_artist`: the left operand is a `uuid.UUID`, the right
is the query parameter declared `Optional[str]`.  `UUID.__eq__` returns
`NotImplemented` for a non-`UUID` operand and `str.__eq__` likewise, so the
comparison always evaluates to `False`. -/
def pyUuidStrEq (_ : UUID) (_ : String) : Bool := false

/-- Python `str(p.birth_date)` as used by the `birth_date` filter of
`list_persons`; `str(None)` is the string `"None"`. -/
def pyStr : Option String → String
  | none => "None"
  | some s => s

/-- `create_address` in `main.py`: 400 conflict when the id exists, else
materialize `AddressRead(**address.model_dump())` (timestamps from
`datetime.utcnow`, passed as `now`), store it under `address.id`, return it
with the decorator status 201. -/
def create_address (w : World) (address : Address) (now : DateTime) :
    Except Err (Nat × AddressRead) × World :=
  if w.addresses.contains address.id then
    (.error .conflict, w)
  else
    let r : AddressRead := { toAddress := address, created_at := now, updated_at := now }
    (.ok (201, r), { w with addresses := w.addresses.set address.id r })

/-- `list_addresses` in `main.py`: start from `list(addresses.values())` and
apply one list-comprehension filter per supplied query parameter, in source
order. -/
def list_addresses (w : World)
    (street city state postal_code country : Option String) : List AddressRead :=
  let results := w.addresses.values
  let results := match street with
    | none => results
    | some x => results.filter (fun a => a.street == x)
  let results := match city with
    | none => results
    | some x => results.filter (fun a => a.city == x)
  let results := match state with
    | none => results
    | some x => results.filter (fun a => a.state == x)
  let results := match postal_code with
    | none => results
    | some x => results.filter (fun a => a.postal_code == x)
  let results := match country with
    | none => results
    | some x => results.filter (fun a => a.country == x)
  results

/-- `get_address` in `main.py`: 404 when absent, else the stored record. -/
def get_address (w : World) (address_id : UUID) : Except Err (Nat × AddressRead) :=
  match w.addresses.get? address_id with
  | none => .error .notFound
  | some a => .ok (200, a)

/-- `update_address` in `main.py`: 404 when absent; otherwise
`stored = addresses[id].model_dump()`, overlaid with
`update.model_dump(exclude_unset=True)`, re-validated as `AddressRead` and
re-stored under the same identifier.  `AddressUpdate` has no identifier or
timestamp fields, so those come from the stored dump. -/
def update_address (w : World) (address_id : UUID) (update : AddressUpdate) :
    Except Err (Nat × AddressRead) × World :=
  match w.addresses.get? address_id with
  | none => (.error .notFound, w)
  | some a =>
    let r : AddressRead := { a with
      street := update.street.getD a.street
      city := update.city.getD a.city
      state := update.state.getD a.state
      postal_code := update.postal_code.getD a.postal_code
      country := update.country.getD a.country }
    (.ok (200, r), { w with addresses := w.addresses.set address_id r })

/-- `create_person` in `main.py`: `PersonRead(**person.model_dump())` — the
payload carries no usable identifier (spec §9: any client-supplied Person
identifier is silently discarded), so the `id` and timestamp
`default_factory`s fire: `fresh` is the `uuid4()` result and `now` the
current instant.  No conflict check; the record is stored under the fresh
identifier and returned with status 201. -/
def create_person (w : World) (person : PersonCreate) (fresh : UUID) (now : DateTime) :
    Except Err (Nat × PersonRead) × World :=
  let person_read : PersonRead :=
    { id := fresh
      uni := person.uni
      first_name := person.first_name
      last_name := person.last_name
      email := person.email
      phone := person.phone
      birth_date := person.birth_date
      addresses := person.addresses
      created_at := now
      updated_at := now }
  (.ok (201, person_read), { w with persons := w.persons.set fresh person_read })

/-- `list_persons` in `main.py`: scalar equality filters applied in source
order, then the two nested address filters (`any(addr.city == city ...)`,
`any(addr.country == country ...)`). -/
def list_persons (w : World)
    (uni first_name last_name email phone birth_date city country : Option String) :
    List PersonRead :=
  let results := w.persons.values
  let results := match uni with
    | none => results
    | some x => results.filter (fun p => p.uni == x)
  let results := match first_name with
    | none => results
    | some x => results.filter (fun p => p.first_name == x)
  let results := match last_name with
    | none => results
    | some x => results.filter (fun p => p.last_name == x)
  let results := match email with
    | none => results
    | some x => results.filter (fun p => p.email == some x)
  let results := match phone with
    | none => results
    | some x => results.filter (fun p => p.phone == some x)
  let results := match birth_date with
    | none => results
    | some x => results.filter (fun p => pyStr p.birth_date == x)
  let results := match city with
    | none => results
    | some x => results.filter (fun p => p.addresses.any (fun addr => addr.city == x))
  let results := match country with
    | none => results
    | some x => results.filter (fun p => p.addresses.any (fun addr => addr.country == x))
  results

/-- `get_person` in `main.py`: 404 when absent, else the stored record. -/
def get_person (w : World) (person_id : UUID) : Except Err (Nat × PersonRead) :=
  match w.persons.get? person_id with
  | none => .error .notFound
  | some p => .ok (200, p)

/-- `update_person` in `main.py`: same merge-and-re-store shape as
`update_address`; `PersonUpdate` has no identifier or timestamp fields. -/
def update_person (w : World) (person_id : UUID) (update : PersonUpdate) :
    Except Err (Nat × PersonRead) × World :=
  match w.persons.get? person_id with
  | none => (.error .notFound, w)
  | some p =>
    let r : PersonRead := { p with
      uni := update.uni.getD p.uni
      first_name := update.first_name.getD p.first_name
      last_name := update.last_name.getD p.last_name
      email := update.email.getD p.email
      phone := update.phone.getD p.phone
      birth_date := update.birth_date.getD p.birth_date
      addresses := update.addresses.getD p.addresses }
    (.ok (200, r), { w with persons := w.persons.set person_id r })

/-- `create_song` in `main.py`: 400 conflict when the id exists, else
materialize `SongRead(**song.model_dump())` (timestamps from `utcnow`,
passed as `now`), store under `song_read.id` (= `song.id`), return it with
status 201. -/
def create_song (w : World) (song : SongBase) (now : DateTime) :
    Except Err (Nat × SongRead) × World :=
  if w.songs.contains song.id then
    (.error .conflict, w)
  else
    let song_read : SongRead := { toSongBase := song, created_at := now, updated_at := now }
    (.ok (201, song_read), { w with songs := w.songs.set song.id song_read })

/-- `list_song` in `main.py`.  The `id` filter compares the stored `UUID`
against the `str` query parameter (`pyUuidStrEq`); `name` is a string
comparison; `artist_name` matches when any embedded artist has that name. -/
def list_song (w : World) (id name artist_name : Option String) : List SongRead :=
  let results := w.songs.values
  let results := match id with
    | none => results
    | some x => results.filter (fun s => pyUuidStrEq s.id x)
  let results := match name with
    | none => results
    | some x => results.filter (fun s => s.name == x)
  let results := match artist_name with
    | none => results
    | some x => results.filter (fun s => s.artists.any (fun a => a.name == x))
  results

/-- `get_song` in `main.py`: 404 when absent, else the stored record. -/
def get_song (w : World) (song_id : UUID) : Except Err (Nat × SongRead) :=
  match w.songs.get? song_id with
  | none => .error .notFound
  | some s => .ok (200, s)

/-- `update_song` in `main.py`: 404 when absent; otherwise overlay the
set fields of the payload on the stored dump and re-validate as
`SongRead(**stored)`.  A set-to-null `name`, `artists`, `length` or
`published_date` survives the overlay and then fails `SongRead`
re-validation (those fields are non-nullable in `SongBase`), raising an
unhandled pydantic error (500) before the store is assigned.  A supplied
`id` overlays the stored identifier field (the record stays under the same
dict key). -/
def update_song (w : World) (song_id : UUID) (update : SongUpdate) :
    Except Err (Nat × SongRead) × World :=
  match w.songs.get? song_id with
  | none => (.error .notFound, w)
  | some s =>
    match update.name.getD (some s.name), update.artists.getD (some s.artists),
        update.length.getD (some s.length),
        update.published_date.getD (some s.published_date) with
    | some n, some ar, some l, some p =>
      let r : SongRead :=
        { id := update.id.getD s.id
          name := n
          artists := ar
          length := l
          published_date := p
          created_at := s.created_at
          updated_at := s.updated_at }
      (.ok (200, r), { w with songs := w.songs.set song_id r })
    | _, _, _, _ => (.error .validation, w)

/-- The PATCH /songs/{id} route as seen by a client: FastAPI validates the
`SongUpdate` body (422 on a missing required field) before `update_song`
runs. -/
def patchSong (w : World) (song_id : UUID) (update : SongUpdate) :
    Except Err (Nat × SongRead) × World :=
  if update.valid then update_song w song_id update else (.error .unprocessable, w)

/-- `delete_song` in `main.py`: 404 when absent, else `songs.pop(song_id)`
and a confirmation message naming the deleted song. -/
def delete_song (w : World) (song_id : UUID) : Except Err (Nat × String) × World :=
  match w.songs.get? song_id with
  | none => (.error .notFound, w)
  | some deleted_song =>
    (.ok (200, "Song \x27" ++ deleted_song.name ++ "\x27 was deleted successfully"),
     { w with songs := w.songs.pop song_id })

/-- `create_artists` in `main.py`: 400 conflict when the id exists, else
materialize `ArtistRead(**artist.model_dump())`, store under `artist.id`,
return it with status 201. -/
def create_artists (w : World) (artist : ArtistBase) (now : DateTime) :
    Except Err (Nat × ArtistRead) × World :=
  if w.artists.contains artist.id then
    (.error .conflict, w)
  else
    let r : ArtistRead := { toArtistBase := artist, created_at := now, updated_at := now }
    (.ok (201, r), { w with artists := w.artists.set artist.id r })

/-- `list_artist` in `main.py`: `id` filter compares `UUID` to `str`
(`pyUuidStrEq`), `name` is a string comparison. -/
def list_artist (w : World) (id name : Option String) : List ArtistRead :=
  let results := w.artists.values
  let results := match id with
    | none => results
    | some x => results.filter (fun a => pyUuidStrEq a.id x)
  let results := match name with
    | none => results
    | some x => results.filter (fun a => a.name == x)
  results

/-- `get_artist` in `main.py`: 404 when absent, else the stored record. -/
def get_artist (w : World) (artist_id : UUID) : Except Err (Nat × ArtistRead) :=
  match w.artists.get? artist_id with
  | none => .error .notFound
  | some a => .ok (200, a)

/-- `update_artist` in `main.py`: 404 when absent; otherwise overlay the
set fields of the payload on the stored dump and re-store.  A supplied `id`
overlays the stored identifier field (the record stays under the same dict
key); `name` is non-nullable, so `ArtistRead` re-validation cannot fail. -/
def update_artist (w : World) (artist_id : UUID) (update : ArtistUpdate) :
    Except Err (Nat × ArtistRead) × World :=
  match w.artists.get? artist_id with
  | none => (.error .notFound, w)
  | some a =>
    let r : ArtistRead :=
      { id := update.id.getD a.id
        name := update.name.getD a.name
        real_name := update.real_name.getD a.real_name
        bio := update.bio.getD a.bio
        created_at := a.created_at
        updated_at := a.updated_at }
    (.ok (200, r), { w with artists := w.artists.set artist_id r })

/-- The PATCH /artist/{id} route as seen by a client: FastAPI validates the
`ArtistUpdate` body (422 when `name` is unset) before `update_artist`
runs. -/
def patchArtist (w : World) (artist_id : UUID) (update : ArtistUpdate) :
    Except Err (Nat × ArtistRead) × World :=
  if update.valid then update_artist w artist_id update else (.error .unprocessable, w)

/-- `delete_artist` in `main.py`: 404 when absent, else `artists.pop(...)`
and a confirmation message naming the deleted artist. -/
def delete_artist (w : World) (artist_id : UUID) : Except Err (Nat × String) × World :=
  match w.artists.get? artist_id with
  | none => (.error .notFound, w)
  | some deleted_artist =>
    (.ok (200, "Artist \x27" ++ deleted_artist.name ++ "\x27 was deleted successfully"),
     { w with artists := w.artists.pop artist_id })

/-- The empty Update payloads (no field set by the caller). -/
def AddressUpdate.empty : AddressUpdate := ⟨none, none, none, none, none⟩

/-- Empty Person update payload. -/
def PersonUpdate.empty : PersonUpdate := ⟨none, none, none, none, none, none, none⟩

/-- Empty Artist update payload. -/
def ArtistUpdate.empty : ArtistUpdate := ⟨none, none, none, none⟩

/-- Empty Song update payload. -/
def SongUpdate.empty : SongUpdate := ⟨none, none, none, none, none⟩

/-! ### Characterization of the list filters -/

/-- An optional equality filter on a string field: absent filters are
ignored. -/
def optEq (o : Option String) (v : String) : Bool :=
  match o with
  | none => true
  | some x => v == x

/-- The conjunction of the five optional `list_addresses` filters (nested in
the order the successive list comprehensions compose; `&&` is commutative
and associative, so the nesting is immaterial to the property). -/
def addressMatches (street city state postal_code country : Option String)
    (a : AddressRead) : Bool :=
  optEq country a.country &&
  (optEq postal_code a.postal_code &&
   (optEq state a.state && (optEq city a.city && optEq street a.street)))

/-- The conjunction of the eight optional `list_persons` filters: six scalar
filters (the optional `email`/`phone` compare the nullable stored value to
the query string, the `birth_date` filter compares `str(p.birth_date)`) and
the two nested address filters. -/
def personMatches (uni first_name last_name email phone birth_date city country : Option String)
    (p : PersonRead) : Bool :=
  (match country with
   | none => true
   | some x => p.addresses.any (fun addr => addr.country == x)) &&
  ((match city with
    | none => true
    | some x => p.addresses.any (fun addr => addr.city == x)) &&
   (optEq birth_date (pyStr p.birth_date) &&
    ((match phone with | none => true | some x => p.phone == some x) &&
     ((match email with | none => true | some x => p.email == some x) &&
      (optEq last_name p.last_name &&
       (optEq first_name p.first_name && optEq uni p.uni))))))

/-- The conjunction of the three optional `list_song` filters; the `id`
filter is the Python `UUID == str` comparison. -/
def songMatches (id name artist_name : Option String) (s : SongRead) : Bool :=
  (match artist_name with
   | none => true
   | some x => s.artists.any (fun a => a.name == x)) &&
  (optEq name s.name &&
   (match id with | none => true | some x => pyUuidStrEq s.id x))

/-- The conjunction of the two optional `list_artist` filters; the `id`
filter is the Python `UUID == str` comparison. -/
def artistMatches (id name : Option String) (a : ArtistRead) : Bool :=
  optEq name a.name && (match id with | none => true | some x => pyUuidStrEq a.id x)

theorem list_addresses_eq_filter (w : World)
    (street city state postal_code country : Option String) :
    list_addresses w street city state postal_code country =
      w.addresses.values.filter (addressMatches street city state postal_code country) := by
  unfold list_addresses addressMatches optEq
  cases street <;> cases city <;> cases state <;> cases postal_code <;> cases country <;>
    simp [List.filter_filter]

theorem list_persons_eq_filter (w : World)
    (uni first_name last_name email phone birth_date city country : Option String) :
    list_persons w uni first_name last_name email phone birth_date city country =
      w.persons.values.filter
        (personMatches uni first_name last_name email phone birth_date city country) := by
  unfold list_persons personMatches optEq
  cases uni <;> cases first_name <;> cases last_name <;> cases email <;> cases phone <;>
    cases birth_date <;> cases city <;> cases country <;>
    simp [List.filter_filter]

theorem list_song_eq_filter (w : World) (id name artist_name : Option String) :
    list_song w id name artist_name =
      w.songs.values.filter (songMatches id name artist_name) := by
  unfold list_song songMatches optEq
  cases id <;> cases name <;> cases artist_name <;> simp [List.filter_filter]

theorem list_artist_eq_filter (w : World) (id name : Option String) :
    list_artist w id name = w.artists.values.filter (artistMatches id name) := by
  unfold list_artist artistMatches optEq
  cases id <;> cases name <;> simp [List.filter_filter]

/-! ### Concrete fixtures for counterexamples and witnesses -/

/-- A world with all four stores empty (the state at process start). -/
def World.empty : World := ⟨[], [], [], []⟩

/-- A stored address record. -/
def addr0 : AddressRead :=
  { id := ⟨"a1"⟩, street := "Broadway", city := "Paris", state := "TX",
    postal_code := "75460", country := "US", created_at := 1, updated_at := 1 }

/-- A world whose address store holds exactly `addr0`. -/
def worldA : World := { persons := [], addresses := [(⟨"a1"⟩, addr0)], songs := [], artists := [] }

/-- A stored artist record. -/
def artist0 : ArtistRead :=
  { id := ⟨"r1"⟩, name := "The Weekend", real_name := some "Abel Tesfaye",
    bio := none, created_at := 2, updated_at := 2 }

/-- A world whose artist store holds exactly `artist0`. -/
def worldR : World := { persons := [], addresses := [], songs := [], artists := [(⟨"r1"⟩, artist0)] }

/-- A stored song record, keyed by a canonical UUID string. -/
def song0 : SongRead :=
  { id := ⟨"650e8400-e29b-41d4-a716-446655440000"⟩, name := "Save Your Tears",
    artists := [{ id := ⟨"r1"⟩, name := "The Weekend",
                  real_name := some "Abel Tesfaye", bio := none }],
    length := 216, published_date := "2020-08-09", created_at := 3, updated_at := 3 }

/-- A world whose song store holds exactly `song0`. -/
def worldS : World := { persons := [], addresses := [], songs := [(song0.id, song0)], artists := [] }

/-- A stored person record embedding one address. -/
def person0 : PersonRead :=
  { id := ⟨"p1"⟩, uni := "ab1234", first_name := "Ada", last_name := "Lovelace",
    email := some "ada@example.org", phone := none, birth_date := some "1815-12-10",
    addresses := [addr0.toAddress], created_at := 4, updated_at := 4 }

/-- A world whose person store holds exactly `person0`. -/
def worldP : World := { persons := [(⟨"p1"⟩, person0)], addresses := [], songs := [], artists := [] }

/-! ### Claim theorems -/

/-- C6: listing persons with a `city` (resp. `country`) filter returns
exactly the stored persons having at least one embedded address whose city
(resp. country) equals the filter value by exact case-sensitive string
comparison, and listing songs with an `artist_name` filter returns exactly
the stored songs having at least one embedded artist whose name equals the
filter value exactly. -/
theorem nested_filters_match_any_embedded :
    (∀ (w : World) (x : String),
      list_persons w none none none none none none (some x) none =
        w.persons.values.filter (fun p => p.addresses.any (fun addr => addr.city == x)) ∧
      ∀ p, p ∈ list_persons w none none none none none none (some x) none ↔
        p ∈ w.persons.values ∧ ∃ addr ∈ p.addresses, addr.city = x) ∧
    (∀ (w : World) (x : String),
      list_persons w none none none none none none none (some x) =
        w.persons.values.filter (fun p => p.addresses.any (fun addr => addr.country == x)) ∧
      ∀ p, p ∈ list_persons w none none none none none none none (some x) ↔
        p ∈ w.persons.values ∧ ∃ addr ∈ p.addresses, addr.country = x) ∧
    (∀ (w : World) (x : String),
      list_song w none none (some x) =
        w.songs.values.filter (fun s => s.artists.any (fun a => a.name == x)) ∧
      ∀ s, s ∈ list_song w none none (some x) ↔
        s ∈ w.songs.values ∧ ∃ a ∈ s.artists, a.name = x) := by
  refine ⟨fun w x => ⟨?_, ?_⟩, fun w x => ⟨?_, ?_⟩, fun w x => ⟨?_, ?_⟩⟩
  · rw [list_persons_eq_filter]
    congr 1
    funext p
    simp [personMatches, optEq]
  · rw [list_persons_eq_filter]
    intro p
    simp [personMatches, optEq, List.mem_filter, List.any_eq_true]
  · rw [list_persons_eq_filter]
    congr 1
    funext p
    simp [personMatches, optEq]
  · rw [list_persons_eq_filter]
    intro p
    simp [personMatches, optEq, List.mem_filter, List.any_eq_true]
  · rw [list_song_eq_filter]
    congr 1
    funext s
    simp [songMatches, optEq]
  · rw [list_song_eq_filter]
    intro s
    simp [songMatches, optEq, List.mem_filter, List.any_eq_true]

/-- C7 counterexample: the claim "every supplied filter matches by exact
equality" fails at a concrete input.  The artist store holds exactly
`artist0`, whose identifier's canonical textual form is `"r1"`, yet listing
artists with the id filter `"r1"` returns the empty list: `list_artist`
compares the stored `uuid.UUID` to the query `str`, which is always false
in Python. -/
theorem artist_id_filter_never_matches :
    list_artist worldR (some "r1") none = [] ∧
    worldR.artists.values = [artist0] ∧
    artist0.id.val = "r1" := by
  refine ⟨rfl, rfl, rfl⟩

/-- C7 (amended): every list operation equals a single ordered pass over the
store's values (insertion order) keeping exactly the records on which the
supplied filters all hold (absent filters ignored, composition by logical
AND); string-valued filters compare by exact equality, with the one
exception the counterexample forces: the `id` filters of the song and artist
lists compare the stored UUID against the query string — a comparison that
is always false — so any song or artist listing that supplies an `id` filter
returns the empty list.  Listing with no filters returns all stored records
in insertion order. -/
theorem list_filters_compose_with_and :
    (∀ (w : World) (street city state postal_code country : Option String),
      list_addresses w street city state postal_code country =
        w.addresses.values.filter (addressMatches street city state postal_code country)) ∧
    (∀ (w : World) (uni first_name last_name email phone birth_date city country : Option String),
      list_persons w uni first_name last_name email phone birth_date city country =
        w.persons.values.filter
          (personMatches uni first_name last_name email phone birth_date city country)) ∧
    (∀ (w : World) (id name artist_name : Option String),
      list_song w id name artist_name =
        w.songs.values.filter (songMatches id name artist_name)) ∧
    (∀ (w : World) (id name : Option String),
      list_artist w id name = w.artists.values.filter (artistMatches id name)) ∧
    (∀ w : World, list_addresses w none none none none none = w.addresses.values) ∧
    (∀ w : World, list_persons w none none none none none none none none = w.persons.values) ∧
    (∀ w : World, list_song w none none none = w.songs.values) ∧
    (∀ w : World, list_artist w none none = w.artists.values) ∧
    (∀ (w : World) (x : String) (name artist_name : Option String),
      list_song w (some x) name artist_name = []) ∧
    (∀ (w : World) (x : String) (name : Option String),
      list_artist w (some x) name = []) := by
  refine ⟨list_addresses_eq_filter, list_persons_eq_filter, list_song_eq_filter,
    list_artist_eq_filter, fun w => rfl, fun w => rfl, fun w => rfl, fun w => rfl,
    ?_, ?_⟩
  · intro w x name artist_name
    have h : w.songs.values.filter (fun s => pyUuidStrEq s.id x) = [] := by
      simp [pyUuidStrEq]
    cases name <;> cases artist_name <;> simp [list_song, h]
  · intro w x name
    have h : w.artists.values.filter (fun a => pyUuidStrEq a.id x) = [] := by
      simp [pyUuidStrEq]
    cases name <;> simp [list_artist, h]

/-- C8: evaluation of the code at the failing input.  The song store holds
exactly `song0` under the identifier whose canonical text is
`"650e8400-e29b-41d4-a716-446655440000"`; listing songs with that very
string as the `id` filter returns the empty list instead of `[song0]`,
because `s.id == id` in `list_song` compares a `uuid.UUID` to a `str`. -/
theorem song_id_filter_returns_nothing :
    list_song worldS (some "650e8400-e29b-41d4-a716-446655440000") none none = [] ∧
    worldS.songs.values = [song0] ∧
    song0.id.val = "650e8400-e29b-41d4-a716-446655440000" := by
  refine ⟨rfl, rfl, rfl⟩

/-- Song update payload that sets only the `name` field. -/
def songOnlyName : SongUpdate := ⟨none, some (some "After Hours"), none, none, none⟩

/-- C1 counterexample: for the Song collection a payload that supplies only
the field `name` (every other field unset) does not replace the stored
record — `SongUpdate` declares `name`, `length` and `published_date` with
`Field(...)` and no default, so they are required and schema validation
rejects the payload (422); the store is left unchanged and the stored song
keeps its old name. -/
theorem single_field_song_update_rejected :
    patchSong worldS song0.id songOnlyName = (.error .unprocessable, worldS) ∧
    (worldS.songs.get? song0.id).map (fun s => s.name) = some "Save Your Tears" := by
  refine ⟨rfl, rfl⟩

/-- C1 (amended): whenever a partial-update request is accepted, the fields
the payload set are applied (each takes the payload's value, a set-to-null
nullable field becomes null) and the fields left unset are never applied;
the merged record is re-stored under the same identifier and returned, and
no other stored record changes.  For Person and Address every field of the
Update payload is optional, so this covers a payload supplying only one
field X; for Artist a single-field payload passes validation only when X is
`name`; for Song no payload that sets a single field passes validation —
the request is rejected with 422 and nothing is stored (last conjunct,
shown for a payload setting only `name`). -/
theorem update_applies_exactly_set_fields :
    ∀ (w : World) (k : UUID),
    (∀ (u : AddressUpdate) (a : AddressRead), w.addresses.get? k = some a →
      ∃ r w2, update_address w k u = (.ok (200, r), w2) ∧
        r.id = a.id ∧ r.created_at = a.created_at ∧ r.updated_at = a.updated_at ∧
        r.street = u.street.getD a.street ∧ r.city = u.city.getD a.city ∧
        r.state = u.state.getD a.state ∧
        r.postal_code = u.postal_code.getD a.postal_code ∧
        r.country = u.country.getD a.country ∧
        w2.addresses.get? k = some r ∧
        (∀ k', k' ≠ k → w2.addresses.get? k' = w.addresses.get? k') ∧
        w2.persons = w.persons ∧ w2.songs = w.songs ∧ w2.artists = w.artists) ∧
    (∀ (u : PersonUpdate) (p : PersonRead), w.persons.get? k = some p →
      ∃ r w2, update_person w k u = (.ok (200, r), w2) ∧
        r.id = p.id ∧ r.created_at = p.created_at ∧ r.updated_at = p.updated_at ∧
        r.uni = u.uni.getD p.uni ∧ r.first_name = u.first_name.getD p.first_name ∧
        r.last_name = u.last_name.getD p.last_name ∧ r.email = u.email.getD p.email ∧
        r.phone = u.phone.getD p.phone ∧ r.birth_date = u.birth_date.getD p.birth_date ∧
        r.addresses = u.addresses.getD p.addresses ∧
        w2.persons.get? k = some r ∧
        (∀ k', k' ≠ k → w2.persons.get? k' = w.persons.get? k') ∧
        w2.addresses = w.addresses ∧ w2.songs = w.songs ∧ w2.artists = w.artists) ∧
    (∀ (u : ArtistUpdate) (a : ArtistRead), w.artists.get? k = some a → u.valid = true →
      ∃ r w2, patchArtist w k u = (.ok (200, r), w2) ∧
        r.created_at = a.created_at ∧ r.updated_at = a.updated_at ∧
        r.id = u.id.getD a.id ∧ r.name = u.name.getD a.name ∧
        r.real_name = u.real_name.getD a.real_name ∧ r.bio = u.bio.getD a.bio ∧
        w2.artists.get? k = some r ∧
        (∀ k', k' ≠ k → w2.artists.get? k' = w.artists.get? k') ∧
        w2.persons = w.persons ∧ w2.addresses = w.addresses ∧ w2.songs = w.songs) ∧
    (∀ (u : SongUpdate) (s : SongRead) (n : String) (ar : List ArtistBase)
        (l : Duration) (pd : String),
      w.songs.get? k = some s → u.valid = true →
      u.name.getD (some s.name) = some n →
      u.artists.getD (some s.artists) = some ar →
      u.length.getD (some s.length) = some l →
      u.published_date.getD (some s.published_date) = some pd →
      ∃ r w2, patchSong w k u = (.ok (200, r), w2) ∧
        r.created_at = s.created_at ∧ r.updated_at = s.updated_at ∧
        r.id = u.id.getD s.id ∧ r.name = n ∧ r.artists = ar ∧ r.length = l ∧
        r.published_date = pd ∧
        w2.songs.get? k = some r ∧
        (∀ k', k' ≠ k → w2.songs.get? k' = w.songs.get? k') ∧
        w2.persons = w.persons ∧ w2.addresses = w.addresses ∧ w2.artists = w.artists) ∧
    (∀ v : String,
      patchSong w k ⟨none, some (some v), none, none, none⟩ = (.error .unprocessable, w)) := by
  intro w k
  refine ⟨?_, ?_, ?_, ?_, ?_⟩
  · intro u a h
    let r0 : AddressRead := { a with
      street := u.street.getD a.street
      city := u.city.getD a.city
      state := u.state.getD a.state
      postal_code := u.postal_code.getD a.postal_code
      country := u.country.getD a.country }
    refine ⟨r0, { w with addresses := w.addresses.set k r0 }, ?_,
      rfl, rfl, rfl, rfl, rfl, rfl, rfl, rfl,
      Store.get?_set_self _ _ _, fun k' hk => Store.get?_set_ne _ _ _ _ hk, rfl, rfl, rfl⟩
    simp only [update_address, h]
  · intro u p h
    let r0 : PersonRead := { p with
      uni := u.uni.getD p.uni
      first_name := u.first_name.getD p.first_name
      last_name := u.last_name.getD p.last_name
      email := u.email.getD p.email
      phone := u.phone.getD p.phone
      birth_date := u.birth_date.getD p.birth_date
      addresses := u.addresses.getD p.addresses }
    refine ⟨r0, { w with persons := w.persons.set k r0 }, ?_,
      rfl, rfl, rfl, rfl, rfl, rfl, rfl, rfl, rfl, rfl,
      Store.get?_set_self _ _ _, fun k' hk => Store.get?_set_ne _ _ _ _ hk, rfl, rfl, rfl⟩
    simp only [update_person, h]
  · intro u a h hv
    let r0 : ArtistRead :=
      { id := u.id.getD a.id
        name := u.name.getD a.name
        real_name := u.real_name.getD a.real_name
        bio := u.bio.getD a.bio
        created_at := a.created_at
        updated_at := a.updated_at }
    refine ⟨r0, { w with artists := w.artists.set k r0 }, ?_,
      rfl, rfl, rfl, rfl, rfl, rfl,
      Store.get?_set_self _ _ _, fun k' hk => Store.get?_set_ne _ _ _ _ hk, rfl, rfl, rfl⟩
    simp only [patchArtist, hv, if_true, update_artist, h]
  · intro u s n ar l pd h hv hn har hl hpd
    let r0 : SongRead :=
      { id := u.id.getD s.id
        name := n
        artists := ar
        length := l
        published_date := pd
        created_at := s.created_at
        updated_at := s.updated_at }
    refine ⟨r0, { w with songs := w.songs.set k r0 }, ?_,
      rfl, rfl, rfl, rfl, rfl, rfl, rfl,
      Store.get?_set_self _ _ _, fun k' hk => Store.get?_set_ne _ _ _ _ hk, rfl, rfl, rfl⟩
    simp only [patchSong, hv, if_true, update_song, h, hn, har, hl, hpd]
  · intro v
    simp [patchSong, SongUpdate.valid]

/-- Address update payload setting only `city`. -/
def addrU1 : AddressUpdate := ⟨none, some "Lyon", none, none, none⟩

/-- Person update payload setting only `email`, supplied as null. -/
def persU1 : PersonUpdate := ⟨none, none, none, some none, none, none, none⟩

/-- Artist update payload setting only `name` (the one single-field payload
that passes `ArtistUpdate` validation). -/
def artU1 : ArtistUpdate := ⟨none, some "Abel", none, none⟩

/-- Song update payload setting the three required fields to values. -/
def songU1 : SongUpdate :=
  ⟨none, some (some "After Hours"), none, some (some 220), some (some "2021-01-04")⟩

/-- Witness for `update_applies_exactly_set_fields` at concrete inputs: a
city-only address update, a null-email person update, a name-only artist
update, a full song update, and the 422 rejection of a name-only song
update. -/
theorem update_applies_exactly_set_fields_witness :
    (∃ r w2, update_address worldA ⟨"a1"⟩ addrU1 = (.ok (200, r), w2) ∧
      r.city = "Lyon" ∧ r.id = addr0.id) ∧
    (∃ r w2, update_person worldP ⟨"p1"⟩ persU1 = (.ok (200, r), w2) ∧ r.email = none) ∧
    (∃ r w2, patchArtist worldR ⟨"r1"⟩ artU1 = (.ok (200, r), w2) ∧ r.name = "Abel") ∧
    (∃ r w2, patchSong worldS song0.id songU1 = (.ok (200, r), w2) ∧
      r.name = "After Hours") ∧
    patchSong worldS song0.id ⟨none, some (some "x"), none, none, none⟩ =
      (.error .unprocessable, worldS) := by
  refine ⟨?_, ?_, ?_, ?_, ?_⟩
  · obtain ⟨r, w2, he, hid, _, _, _, hcity, _, _, _, _, _, _, _⟩ :=
      (update_applies_exactly_set_fields worldA ⟨"a1"⟩).1 addrU1 addr0 rfl
    exact ⟨r, w2, he, hcity.trans rfl, hid⟩
  · obtain ⟨r, w2, he, _, _, _, _, _, _, hemail, _, _, _, _, _, _, _, _⟩ :=
      (update_applies_exactly_set_fields worldP ⟨"p1"⟩).2.1 persU1 person0 rfl
    exact ⟨r, w2, he, hemail.trans rfl⟩
  · obtain ⟨r, w2, he, _, _, _, hname, _, _, _, _, _, _, _⟩ :=
      (update_applies_exactly_set_fields worldR ⟨"r1"⟩).2.2.1 artU1 artist0 rfl rfl
    exact ⟨r, w2, he, hname.trans rfl⟩
  · obtain ⟨r, w2, he, _, _, _, hname, _, _, _, _, _, _, _, _⟩ :=
      (update_applies_exactly_set_fields worldS song0.id).2.2.2.1 songU1 song0
        "After Hours" song0.artists 220 "2021-01-04" rfl rfl rfl rfl rfl rfl
    exact ⟨r, w2, he, hname⟩
  · exact (update_applies_exactly_set_fields worldS song0.id).2.2.2.2 "x"

/-- Artist update payload that supplies an `id` (plus the required
`name`). -/
def artU2 : ArtistUpdate := ⟨some ⟨"r2"⟩, some "The Weekend", none, none⟩

/-- C2 counterexample: an accepted artist update payload that supplies an
`id` value changes the stored record's identifier field.  The artist stored
under key `"r1"` (whose identifier field was `"r1"`) ends up with
identifier field `"r2"` — the `exclude_unset` dump of the payload contains
`id`, and `stored.update(...)` overlays it. -/
theorem update_payload_id_overwrites_identifier :
    patchArtist worldR ⟨"r1"⟩ artU2 =
      (.ok (200, { artist0 with id := ⟨"r2"⟩ }),
       { worldR with artists := [(⟨"r1"⟩, { artist0 with id := ⟨"r2"⟩ })] }) ∧
    artist0.id = ⟨"r1"⟩ ∧ (⟨"r2"⟩ : UUID) ≠ ⟨"r1"⟩ := by
  refine ⟨rfl, rfl, by decide⟩

/-- C2 (amended): partial update always keeps the record under the same
store key and never alters the creation timestamp.  The identifier FIELD of
the stored record is unchanged whenever the payload does not supply an id —
in particular always for Person and Address, whose Update payloads have no
id field — but for Artist and Song a payload that supplies an id value
overwrites the stored record's identifier field with it (while the record
remains stored under the original key). -/
theorem update_preserves_key_and_creation_timestamp :
    ∀ (w : World) (k : UUID),
    (∀ (u : AddressUpdate) (a : AddressRead), w.addresses.get? k = some a →
      ∃ r w2, update_address w k u = (.ok (200, r), w2) ∧ r.id = a.id ∧
        r.created_at = a.created_at ∧ w2.addresses.get? k = some r) ∧
    (∀ (u : PersonUpdate) (p : PersonRead), w.persons.get? k = some p →
      ∃ r w2, update_person w k u = (.ok (200, r), w2) ∧ r.id = p.id ∧
        r.created_at = p.created_at ∧ w2.persons.get? k = some r) ∧
    (∀ (u : ArtistUpdate) (a : ArtistRead), w.artists.get? k = some a →
      ∃ r w2, update_artist w k u = (.ok (200, r), w2) ∧
        r.created_at = a.created_at ∧ w2.artists.get? k = some r ∧
        (u.id = none → r.id = a.id) ∧ ∀ j, u.id = some j → r.id = j) ∧
    (∀ (u : SongUpdate) (s : SongRead) (n : String) (ar : List ArtistBase)
        (l : Duration) (pd : String),
      w.songs.get? k = some s →
      u.name.getD (some s.name) = some n →
      u.artists.getD (some s.artists) = some ar →
      u.length.getD (some s.length) = some l →
      u.published_date.getD (some s.published_date) = some pd →
      ∃ r w2, update_song w k u = (.ok (200, r), w2) ∧
        r.created_at = s.created_at ∧ w2.songs.get? k = some r ∧
        (u.id = none → r.id = s.id) ∧ ∀ j, u.id = some j → r.id = j) := by
  intro w k
  refine ⟨?_, ?_, ?_, ?_⟩
  · intro u a h
    let r0 : AddressRead := { a with
      street := u.street.getD a.street
      city := u.city.getD a.city
      state := u.state.getD a.state
      postal_code := u.postal_code.getD a.postal_code
      country := u.country.getD a.country }
    refine ⟨r0, { w with addresses := w.addresses.set k r0 }, ?_, rfl, rfl,
      Store.get?_set_self _ _ _⟩
    simp only [update_address, h]
  · intro u p h
    let r0 : PersonRead := { p with
      uni := u.uni.getD p.uni
      first_name := u.first_name.getD p.first_name
      last_name := u.last_name.getD p.last_name
      email := u.email.getD p.email
      phone := u.phone.getD p.phone
      birth_date := u.birth_date.getD p.birth_date
      addresses := u.addresses.getD p.addresses }
    refine ⟨r0, { w with persons := w.persons.set k r0 }, ?_, rfl, rfl,
      Store.get?_set_self _ _ _⟩
    simp only [update_person, h]
  · intro u a h
    let r0 : ArtistRead :=
      { id := u.id.getD a.id
        name := u.name.getD a.name
        real_name := u.real_name.getD a.real_name
        bio := u.bio.getD a.bio
        created_at := a.created_at
        updated_at := a.updated_at }
    refine ⟨r0, { w with artists := w.artists.set k r0 }, ?_, rfl,
      Store.get?_set_self _ _ _, ?_, ?_⟩
    · simp only [update_artist, h]
    · intro hid
      show u.id.getD a.id = a.id
      simp [hid]
    · intro j hj
      show u.id.getD a.id = j
      simp [hj]
  · intro u s n ar l pd h hn har hl hpd
    let r0 : SongRead :=
      { id := u.id.getD s.id
        name := n
        artists := ar
        length := l
        published_date := pd
        created_at := s.created_at
        updated_at := s.updated_at }
    refine ⟨r0, { w with songs := w.songs.set k r0 }, ?_, rfl,
      Store.get?_set_self _ _ _, ?_, ?_⟩
    · simp only [update_song, h, hn, har, hl, hpd]
    · intro hid
      show u.id.getD s.id = s.id
      simp [hid]
    · intro j hj
      show u.id.getD s.id = j
      simp [hj]

/-- Witness for `update_preserves_key_and_creation_timestamp`, exercising
the address part and the artist part — the latter at the id-supplying
payload `artU2`, confirming the stored identifier field becomes the
payload's id. -/
theorem update_preserves_key_witness :
    (∃ r w2, update_address worldA ⟨"a1"⟩ addrU1 = (.ok (200, r), w2) ∧
      r.id = addr0.id ∧ r.created_at = addr0.created_at) ∧
    (∃ r w2, update_artist worldR ⟨"r1"⟩ artU2 = (.ok (200, r), w2) ∧
      r.created_at = artist0.created_at ∧ r.id = ⟨"r2"⟩) := by
  refine ⟨?_, ?_⟩
  · obtain ⟨r, w2, he, hid, hcr, _⟩ :=
      (update_preserves_key_and_creation_timestamp worldA ⟨"a1"⟩).1 addrU1 addr0 rfl
    exact ⟨r, w2, he, hid, hcr⟩
  · obtain ⟨r, w2, he, hcr, _, _, hsome⟩ :=
      (update_preserves_key_and_creation_timestamp worldR ⟨"r1"⟩).2.2.1 artU2 artist0 rfl
    exact ⟨r, w2, he, hcr, hsome ⟨"r2"⟩ rfl⟩

/-- C3 counterexample: the empty Update payload (no fields set) is not
accepted for Artist or Song — `ArtistUpdate.name`, and `SongUpdate.name`,
`length`, `published_date`, are required, so validation rejects the empty
payload with 422 and the update is not performed. -/
theorem empty_update_payload_rejected :
    patchArtist worldR ⟨"r1"⟩ ArtistUpdate.empty = (.error .unprocessable, worldR) ∧
    patchSong worldS song0.id SongUpdate.empty = (.error .unprocessable, worldS) ∧
    ArtistUpdate.empty.valid = false ∧ SongUpdate.empty.valid = false := by
  refine ⟨rfl, rfl, rfl, rfl⟩

/-- C3 (amended): for Person and Address every field of the Update payload
is optional, and the partial update of an existing record with the empty
payload is accepted and is an identity — the stored record and the whole
world are unchanged and the stored record is returned.  For Artist (`name`
required) and Song (`name`, `length`, `published_date` required) the empty
payload is rejected by schema validation (422) and no store changes. -/
theorem empty_update_is_identity_where_accepted :
    (∀ (w : World) (k : UUID) (a : AddressRead), w.addresses.get? k = some a →
      update_address w k AddressUpdate.empty = (.ok (200, a), w)) ∧
    (∀ (w : World) (k : UUID) (p : PersonRead), w.persons.get? k = some p →
      update_person w k PersonUpdate.empty = (.ok (200, p), w)) ∧
    (∀ (w : World) (k : UUID),
      patchArtist w k ArtistUpdate.empty = (.error .unprocessable, w)) ∧
    (∀ (w : World) (k : UUID),
      patchSong w k SongUpdate.empty = (.error .unprocessable, w)) := by
  refine ⟨?_, ?_, fun w k => rfl, fun w k => rfl⟩
  · intro w k a h
    have h1 : update_address w k AddressUpdate.empty =
        (.ok (200, a), { w with addresses := w.addresses.set k a }) := by
      simp only [update_address, h]
      rfl
    rw [h1, Store.set_get?_self _ _ _ h]
  · intro w k p h
    have h1 : update_person w k PersonUpdate.empty =
        (.ok (200, p), { w with persons := w.persons.set k p }) := by
      simp only [update_person, h]
      rfl
    rw [h1, Store.set_get?_self _ _ _ h]

/-- Witness for `empty_update_is_identity_where_accepted` at the stored
address `addr0` and the stored person `person0`. -/
theorem empty_update_identity_witness :
    update_address worldA ⟨"a1"⟩ AddressUpdate.empty = (.ok (200, addr0), worldA) ∧
    update_person worldP ⟨"p1"⟩ PersonUpdate.empty = (.ok (200, person0), worldP) := by
  exact ⟨empty_update_is_identity_where_accepted.1 worldA ⟨"a1"⟩ addr0 rfl,
    empty_update_is_identity_where_accepted.2.1 worldP ⟨"p1"⟩ person0 rfl⟩

/-- Person create payload carrying a client-supplied identifier. -/
def personC0 : PersonCreate :=
  { id := some ⟨"client-1"⟩, uni := "xy9999", first_name := "Grace",
    last_name := "Hopper", email := none, phone := none, birth_date := none,
    addresses := [] }

/-- C4: `create_person` builds `PersonRead(**person.model_dump())`, whose
identifier comes from the server-side `uuid4` default factory (`fresh`),
never from the payload: the stored and returned identifier is `fresh`, is
distinct from the client-supplied identifier (the `uuid4` freshness
assumption is the explicit hypothesis `fresh ≠ cid`), and the result does
not depend on the payload's id at all (last conjunct). -/
theorem create_person_mints_fresh_identifier :
    ∀ (w : World) (p : PersonCreate) (fresh : UUID) (now : DateTime) (cid : UUID),
    p.id = some cid → fresh ≠ cid →
    ∃ r w2, create_person w p fresh now = (.ok (201, r), w2) ∧ r.id = fresh ∧
      r.id ≠ cid ∧ w2.persons.get? fresh = some r ∧
      ∀ pid2, create_person w { p with id := pid2 } fresh now =
        create_person w p fresh now := by
  intro w p fresh now cid hp hne
  exact ⟨_, _, rfl, rfl, hne, Store.get?_set_self _ _ _, fun pid2 => rfl⟩

/-- Witness for `create_person_mints_fresh_identifier` with the payload
`personC0` (client identifier `"client-1"`) and minted identifier
`"p9"`. -/
theorem create_person_mints_fresh_identifier_witness :
    ∃ r w2, create_person World.empty personC0 ⟨"p9"⟩ 7 = (.ok (201, r), w2) ∧
      r.id = ⟨"p9"⟩ ∧ r.id ≠ ⟨"client-1"⟩ := by
  obtain ⟨r, w2, he, hid, hne, _, _⟩ :=
    create_person_mints_fresh_identifier World.empty personC0 ⟨"p9"⟩ 7 ⟨"client-1"⟩
      rfl (by decide)
  exact ⟨r, w2, he, hid, hne⟩

/-- C5: for Address, Song and Artist, create fails with Conflict (400)
exactly when the payload's identifier is already a key of the collection's
store; otherwise it materializes a Read record from the payload, stores it
under that identifier, returns it with the 201 created status, and a second
create with the same explicit identifier fails with Conflict. -/
theorem create_conflict_iff_identifier_exists :
    ∀ (w : World) (now : DateTime),
    (∀ a : Address,
      ((create_address w a now).1 = .error .conflict ↔
        w.addresses.contains a.id = true) ∧
      (w.addresses.contains a.id = false →
        ∃ r w2, create_address w a now = (.ok (201, r), w2) ∧ r.toAddress = a ∧
          w2.addresses.get? a.id = some r ∧
          ∀ (a2 : Address) (now2 : DateTime), a2.id = a.id →
            create_address w2 a2 now2 = (.error .conflict, w2))) ∧
    (∀ s : SongBase,
      ((create_song w s now).1 = .error .conflict ↔
        w.songs.contains s.id = true) ∧
      (w.songs.contains s.id = false →
        ∃ r w2, create_song w s now = (.ok (201, r), w2) ∧ r.toSongBase = s ∧
          w2.songs.get? s.id = some r ∧
          ∀ (s2 : SongBase) (now2 : DateTime), s2.id = s.id →
            create_song w2 s2 now2 = (.error .conflict, w2))) ∧
    (∀ t : ArtistBase,
      ((create_artists w t now).1 = .error .conflict ↔
        w.artists.contains t.id = true) ∧
      (w.artists.contains t.id = false →
        ∃ r w2, create_artists w t now = (.ok (201, r), w2) ∧ r.toArtistBase = t ∧
          w2.artists.get? t.id = some r ∧
          ∀ (t2 : ArtistBase) (now2 : DateTime), t2.id = t.id →
            create_artists w2 t2 now2 = (.error .conflict, w2))) := by
  intro w now
  refine ⟨fun a => ⟨?_, ?_⟩, fun s => ⟨?_, ?_⟩, fun t => ⟨?_, ?_⟩⟩
  · cases hc : w.addresses.contains a.id <;> simp [create_address, hc]
  · intro hc
    let r0 : AddressRead := { toAddress := a, created_at := now, updated_at := now }
    refine ⟨r0, { w with addresses := w.addresses.set a.id r0 }, ?_, rfl,
      Store.get?_set_self _ _ _, ?_⟩
    · simp [create_address, hc]
    · intro a2 now2 heq
      have hc2 : (w.addresses.set a.id r0).contains a2.id = true := by
        rw [heq]
        simp [Store.contains, Store.get?_set_self]
      simp [create_address, hc2]
  · cases hc : w.songs.contains s.id <;> simp [create_song, hc]
  · intro hc
    let r0 : SongRead := { toSongBase := s, created_at := now, updated_at := now }
    refine ⟨r0, { w with songs := w.songs.set s.id r0 }, ?_, rfl,
      Store.get?_set_self _ _ _, ?_⟩
    · simp [create_song, hc]
    · intro s2 now2 heq
      have hc2 : (w.songs.set s.id r0).contains s2.id = true := by
        rw [heq]
        simp [Store.contains, Store.get?_set_self]
      simp [create_song, hc2]
  · cases hc : w.artists.contains t.id <;> simp [create_artists, hc]
  · intro hc
    let r0 : ArtistRead := { toArtistBase := t, created_at := now, updated_at := now }
    refine ⟨r0, { w with artists := w.artists.set t.id r0 }, ?_, rfl,
      Store.get?_set_self _ _ _, ?_⟩
    · simp [create_artists, hc]
    · intro t2 now2 heq
      have hc2 : (w.artists.set t.id r0).contains t2.id = true := by
        rw [heq]
        simp [Store.contains, Store.get?_set_self]
      simp [create_artists, hc2]

/-- Witness for `create_conflict_iff_identifier_exists`: creating the
already-stored address id in `worldA` conflicts, and creating it in the
empty world succeeds, after which a repeat create conflicts. -/
theorem create_conflict_witness :
    (create_address worldA addr0.toAddress 9).1 = .error .conflict ∧
    (∃ r w2, create_address World.empty addr0.toAddress 9 = (.ok (201, r), w2) ∧
      ∀ now2 : DateTime, create_address w2 addr0.toAddress now2 =
        (.error .conflict, w2)) := by
  constructor
  · exact ((create_conflict_iff_identifier_exists worldA 9).1 addr0.toAddress).1.mpr rfl
  · obtain ⟨r, w2, he, _, _, hsecond⟩ :=
      ((create_conflict_iff_identifier_exists World.empty 9).1 addr0.toAddress).2 rfl
    exact ⟨r, w2, he, fun now2 => hsecond addr0.toAddress now2 rfl⟩

/-- C9: for every collection, get / partial update / (Song, Artist) delete
of an identifier absent from the store fail with NotFound (404); get of a
present identifier returns exactly the stored record with status 200.  For
Song and Artist the update conjunct is stated for payloads passing schema
validation (an invalid body is rejected with 422 before the lookup). -/
theorem absent_identifier_not_found :
    ∀ (w : World) (k : UUID),
    (w.addresses.get? k = none →
      get_address w k = .error .notFound ∧
      ∀ u, update_address w k u = (.error .notFound, w)) ∧
    (w.persons.get? k = none →
      get_person w k = .error .notFound ∧
      ∀ u, update_person w k u = (.error .notFound, w)) ∧
    (w.songs.get? k = none →
      get_song w k = .error .notFound ∧
      (∀ u : SongUpdate, u.valid = true → patchSong w k u = (.error .notFound, w)) ∧
      delete_song w k = (.error .notFound, w)) ∧
    (w.artists.get? k = none →
      get_artist w k = .error .notFound ∧
      (∀ u : ArtistUpdate, u.valid = true → patchArtist w k u = (.error .notFound, w)) ∧
      delete_artist w k = (.error .notFound, w)) ∧
    (∀ a, w.addresses.get? k = some a → get_address w k = .ok (200, a)) ∧
    (∀ p, w.persons.get? k = some p → get_person w k = .ok (200, p)) ∧
    (∀ s, w.songs.get? k = some s → get_song w k = .ok (200, s)) ∧
    (∀ t, w.artists.get? k = some t → get_artist w k = .ok (200, t)) := by
  intro w k
  refine ⟨?_, ?_, ?_, ?_, ?_, ?_, ?_, ?_⟩
  · intro h
    exact ⟨by simp only [get_address, h], fun u => by simp only [update_address, h]⟩
  · intro h
    exact ⟨by simp only [get_person, h], fun u => by simp only [update_person, h]⟩
  · intro h
    refine ⟨by simp only [get_song, h], fun u hv => ?_, by simp only [delete_song, h]⟩
    simp only [patchSong, hv, if_true, update_song, h]
  · intro h
    refine ⟨by simp only [get_artist, h], fun u hv => ?_, by simp only [delete_artist, h]⟩
    simp only [patchArtist, hv, if_true, update_artist, h]
  · intro a h
    simp only [get_address, h]
  · intro p h
    simp only [get_person, h]
  · intro s h
    simp only [get_song, h]
  · intro t h
    simp only [get_artist, h]

/-- Witness for `absent_identifier_not_found`: the identifier `"x"` is
absent from every store of the empty world, and `addr0` is present in
`worldA`. -/
theorem absent_identifier_not_found_witness :
    get_address World.empty ⟨"x"⟩ = .error .notFound ∧
    patchSong World.empty ⟨"x"⟩ songU1 = (.error .notFound, World.empty) ∧
    delete_artist World.empty ⟨"x"⟩ = (.error .notFound, World.empty) ∧
    get_address worldA ⟨"a1"⟩ = .ok (200, addr0) := by
  refine ⟨((absent_identifier_not_found World.empty ⟨"x"⟩).1 rfl).1,
    ((absent_identifier_not_found World.empty ⟨"x"⟩).2.2.1 rfl).2.1 songU1 rfl,
    ((absent_identifier_not_found World.empty ⟨"x"⟩).2.2.2.1 rfl).2.2,
    (absent_identifier_not_found worldA ⟨"a1"⟩).2.2.2.2.1 addr0 rfl⟩

/-- C10: whenever an operation fails — Conflict on create of an
Address/Song/Artist whose identifier exists, 404 on update or delete of an
absent identifier, 422 on an invalid update body, or the 500
re-materialization failure of a song update — the state is returned exactly
as it was: no error path inserts, mutates or removes any record (and each
handler only ever touches its own collection, so the other three stores are
fields of the unchanged `World`).  The get endpoints read the state without
returning a new one, and `create_person` has no error path at all (fourth
conjunct). -/
theorem failed_operations_leave_stores_unchanged :
    ∀ w : World,
    (∀ (a : Address) (now : DateTime) (e : Err),
      (create_address w a now).1 = .error e → (create_address w a now).2 = w) ∧
    (∀ (s : SongBase) (now : DateTime) (e : Err),
      (create_song w s now).1 = .error e → (create_song w s now).2 = w) ∧
    (∀ (t : ArtistBase) (now : DateTime) (e : Err),
      (create_artists w t now).1 = .error e → (create_artists w t now).2 = w) ∧
    (∀ (p : PersonCreate) (fresh : UUID) (now : DateTime) (e : Err),
      (create_person w p fresh now).1 ≠ .error e) ∧
    (∀ (k : UUID) (u : AddressUpdate) (e : Err),
      (update_address w k u).1 = .error e → (update_address w k u).2 = w) ∧
    (∀ (k : UUID) (u : PersonUpdate) (e : Err),
      (update_person w k u).1 = .error e → (update_person w k u).2 = w) ∧
    (∀ (k : UUID) (u : SongUpdate) (e : Err),
      (patchSong w k u).1 = .error e → (patchSong w k u).2 = w) ∧
    (∀ (k : UUID) (u : ArtistUpdate) (e : Err),
      (patchArtist w k u).1 = .error e → (patchArtist w k u).2 = w) ∧
    (∀ (k : UUID) (e : Err),
      (delete_song w k).1 = .error e → (delete_song w k).2 = w) ∧
    (∀ (k : UUID) (e : Err),
      (delete_artist w k).1 = .error e → (delete_artist w k).2 = w) := by
  intro w
  refine ⟨?_, ?_, ?_, ?_, ?_, ?_, ?_, ?_, ?_, ?_⟩
  · intro a now e h
    cases hc : w.addresses.contains a.id
    · simp [create_address, hc] at h
    · simp [create_address, hc]
  · intro s now e h
    cases hc : w.songs.contains s.id
    · simp [create_song, hc] at h
    · simp [create_song, hc]
  · intro t now e h
    cases hc : w.artists.contains t.id
    · simp [create_artists, hc] at h
    · simp [create_artists, hc]
  · intro p fresh now e h
    simp [create_person] at h
  · intro k u e h
    cases hg : w.addresses.get? k with
    | none => simp [update_address, hg]
    | some a => simp [update_address, hg] at h
  · intro k u e h
    cases hg : w.persons.get? k with
    | none => simp [update_person, hg]
    | some p => simp [update_person, hg] at h
  · intro k u e h
    by_cases hv : u.valid
    · cases hg : w.songs.get? k with
      | none => simp [patchSong, hv, update_song, hg]
      | some s =>
        cases h1 : u.name.getD (some s.name) <;>
          cases h2 : u.artists.getD (some s.artists) <;>
          cases h3 : u.length.getD (some s.length) <;>
          cases h4 : u.published_date.getD (some s.published_date) <;>
          simp [patchSong, hv, update_song, hg, h1, h2, h3, h4] at h ⊢
    · simp [patchSong, hv]
  · intro k u e h
    by_cases hv : u.valid
    · cases hg : w.artists.get? k with
      | none => simp [patchArtist, hv, update_artist, hg]
      | some a => simp [patchArtist, hv, update_artist, hg] at h
    · simp [patchArtist, hv]
  · intro k e h
    cases hg : w.songs.get? k with
    | none => simp [delete_song, hg]
    | some s => simp [delete_song, hg] at h
  · intro k e h
    cases hg : w.artists.get? k with
    | none => simp [delete_artist, hg]
    | some t => simp [delete_artist, hg] at h

/-- Witness for `failed_operations_leave_stores_unchanged`: a conflicting
address create, a not-found person update, a 422 song update and a
not-found artist delete all return their input world. -/
theorem failed_operations_witness :
    (create_address worldA addr0.toAddress 9).2 = worldA ∧
    (update_person World.empty ⟨"x"⟩ PersonUpdate.empty).2 = World.empty ∧
    (patchSong worldS song0.id SongUpdate.empty).2 = worldS ∧
    (delete_artist World.empty ⟨"x"⟩).2 = World.empty := by
  refine ⟨(failed_operations_leave_stores_unchanged worldA).1 addr0.toAddress 9 .conflict rfl,
    (failed_operations_leave_stores_unchanged World.empty).2.2.2.2.2.1 ⟨"x"⟩
      PersonUpdate.empty .notFound rfl,
    (failed_operations_leave_stores_unchanged worldS).2.2.2.2.2.2.1 song0.id
      SongUpdate.empty .unprocessable rfl,
    (failed_operations_leave_stores_unchanged World.empty).2.2.2.2.2.2.2.2.2 ⟨"x"⟩
      .notFound rfl⟩
